import Mathlib

/-!
Verification of the polarize frontend client logic.

This file gives a shallow embedding of the client-side logic of the
polarize training-analytics frontend: the zone-preview calculation and the
training-status classifier, the streaming-chat line handler, the request
authorization headers, the auth-session bootstrap and login flows, the
upload-page file check, and the cache-invalidation behaviour of the
mutation operations.

Browser built-ins are modelled explicitly: `JSON.parse` is an `Option`-valued
oracle parameter (a concrete fragment of its behaviour is supplied where a
closed evaluation is needed), `localStorage.getItem` is an `Option String`
argument, network results are `Except` arguments, and the handful of string
operations used by the code (`startsWith`, `slice`, `split`, `toLowerCase`,
`endsWith`) are re-implemented over the character list of a `String` so that
they evaluate inside the kernel.  JavaScript number arithmetic on the small
integer thresholds involved is idealised as exact rational arithmetic, and
`Math.round` as the half-up rounding it performs on these values.
-/

/-- JavaScript `Math.round`: rounds half-up (ties toward positive infinity),
modelled on exact rationals as `⌊q + 1/2⌋`. -/
def jsRound (q : ℚ) : ℤ := ⌊q + (1 / 2 : ℚ)⌋

/-- The five training-status categories returned by `formStatus` in
`calendar/page.tsx` (identified by their display labels: "Very Fatigued",
"Training Hard", "Neutral", "Fresh", "Very Fresh"). -/
inductive FormStatus where
  | veryFatigued
  | trainingHard
  | neutral
  | fresh
  | veryFresh
deriving DecidableEq, Repr

/-- Embeds `formStatus` from `calendar/page.tsx` (lines 212-218): a cascade of
strict-less-than tests on the TSB value. -/
def formStatus (tsb : ℚ) : FormStatus :=
  if tsb < -30 then .veryFatigued
  else if tsb < -10 then .trainingHard
  else if tsb < 5 then .neutral
  else if tsb < 15 then .fresh
  else .veryFresh

/-- Embeds the heart-rate rows of the "Your Zones Preview" section of
`ThresholdsTab` in `activities/page.tsx`: the five displayed
`(lower, upper)` ranges for LTHR `L` and max heart rate `M`, as rendered when
both threshold fields are filled in.  Each bound is transcribed from the
corresponding JSX expression (`Math.round(parseInt(thresholds.threshold_hr) * m)`
and the `+ 1` offsets). -/
def hrZonesPreview (L M : ℤ) : List (ℤ × ℤ) :=
  [ (0, jsRound ((L : ℚ) * 0.5)),
    (jsRound ((L : ℚ) * 0.5) + 1, jsRound ((L : ℚ) * 0.75)),
    (jsRound ((L : ℚ) * 0.75) + 1, L),
    (L + 1, jsRound ((L : ℚ) * 1.1)),
    (jsRound ((L : ℚ) * 1.1) + 1, M) ]

/-- Embeds the power rows of the "Your Zones Preview" section of
`ThresholdsTab` in `activities/page.tsx`: the five displayed
`(lower, upper)` ranges for FTP `P`. -/
def powerZonesPreview (P : ℤ) : List (ℤ × ℤ) :=
  [ (0, jsRound ((P : ℚ) * 0.55)),
    (jsRound ((P : ℚ) * 0.55) + 1, jsRound ((P : ℚ) * 0.75)),
    (jsRound ((P : ℚ) * 0.75) + 1, P),
    (P + 1, jsRound ((P : ℚ) * 1.2)),
    (jsRound ((P : ℚ) * 1.2) + 1, jsRound ((P : ℚ) * 1.5)) ]

/-- The upper bounds of a list of zone ranges. -/
def zoneUppers (zs : List (ℤ × ℤ)) : List ℤ := zs.map Prod.snd

/-- The lower bounds of a list of zone ranges. -/
def zoneLowers (zs : List (ℤ × ℤ)) : List ℤ := zs.map Prod.fst

/-- Embeds the heart-rate half of the "Your Zones" summary of `ZonesTab` in
`activities/page.tsx`: thresholds absent from the user record are read as `0`
(`user?.thresholds?.threshold_hr || 0`), the section is rendered when
`lthr > 0 || maxHr > 0`, and when rendered every bound is computed from `lthr`
as stored in that variable.  `none` models the withheld (not rendered) case. -/
def zonesTabHrSummary (lthr maxHr : ℤ) : Option (List (ℤ × ℤ)) :=
  if 0 < lthr ∨ 0 < maxHr then
    some [ (0, jsRound ((lthr : ℚ) * 0.5)),
           (jsRound ((lthr : ℚ) * 0.5) + 1, jsRound ((lthr : ℚ) * 0.75)),
           (jsRound ((lthr : ℚ) * 0.75) + 1, lthr),
           (lthr + 1, jsRound ((lthr : ℚ) * 1.1)),
           (jsRound ((lthr : ℚ) * 1.1) + 1, maxHr) ]
  else none

/-- Embeds the power half of the "Your Zones" summary of `ZonesTab` in
`activities/page.tsx`: rendered exactly when `ftp > 0`. -/
def zonesTabPowerSummary (ftp : ℤ) : Option (List (ℤ × ℤ)) :=
  if 0 < ftp then
    some [ (0, jsRound ((ftp : ℚ) * 0.55)),
           (jsRound ((ftp : ℚ) * 0.55) + 1, jsRound ((ftp : ℚ) * 0.75)),
           (jsRound ((ftp : ℚ) * 0.75) + 1, ftp),
           (ftp + 1, jsRound ((ftp : ℚ) * 1.2)),
           (jsRound ((ftp : ℚ) * 1.2) + 1, jsRound ((ftp : ℚ) * 1.5)) ]
  else none

/-- `String.prototype.startsWith`, over the character list of the string. -/
def strStartsWith (s p : String) : Bool := s.data.take p.data.length == p.data

/-- `String.prototype.endsWith`, over the character list of the string. -/
def strEndsWith (s p : String) : Bool :=
  s.data.drop (s.data.length - p.data.length) == p.data

/-- `String.prototype.slice(n)` for a character count `n` (the prefixes sliced
off in this development are ASCII, so UTF-16 units coincide with characters). -/
def strDrop (s : String) (n : ℕ) : String := ⟨s.data.drop n⟩

/-- ASCII case lowering of one character; agrees with
`String.prototype.toLowerCase` on the ASCII range (the only range exercised
by the file-extension check). -/
def asciiToLower (c : Char) : Char :=
  if 65 ≤ c.toNat ∧ c.toNat ≤ 90 then Char.ofNat (c.toNat + 32) else c

/-- `String.prototype.toLowerCase`, restricted to its ASCII behaviour. -/
def jsToLowerCase (s : String) : String := ⟨s.data.map asciiToLower⟩

/-- Case-insensitive suffix test: lower-case both sides, then compare.  This is
the specification-side reading of "ends in '.fit' (compared
case-insensitively)". -/
def endsWithCaseInsensitive (s pat : String) : Bool :=
  strEndsWith (jsToLowerCase s) (jsToLowerCase pat)

/-- Worker for `jsSplitNl`: accumulates the current segment (reversed). -/
def splitNlAux : List Char → List Char → List String
  | [], acc => [⟨acc.reverse⟩]
  | c :: cs, acc =>
      if c == '\n' then (⟨acc.reverse⟩ : String) :: splitNlAux cs []
      else splitNlAux cs (c :: acc)

/-- `String.prototype.split` with separator `'\n'`: the list of segments
between newline characters, including empty ones. -/
def jsSplitNl (s : String) : List String := splitNlAux s.data []

/-- JSON values as produced by `JSON.parse` (object fields are the final
properties of the parsed object, in order). -/
inductive Json where
  | null
  | bool (b : Bool)
  | num (q : ℚ)
  | str (s : String)
  | arr (elems : List Json)
  | obj (fields : List (String × Json))

/-- JavaScript truthiness of a JSON value: `null`, `false`, `0` and the empty
string are falsy; every object and array is truthy. -/
def jsTruthy : Json → Bool
  | .null => false
  | .bool b => b
  | .num q => decide (q ≠ 0)
  | .str s => s != ""
  | .arr _ => true
  | .obj _ => true

/-- Property access `data.text` on a parsed JSON value: defined on objects,
`undefined` (here `none`) on every other value. -/
def jsonGetField (j : Json) (key : String) : Option Json :=
  match j with
  | .obj fields => fields.lookup key
  | _ => none

/-- Embeds the per-line body of the `chatStream` loop in the API client
(`for (const line of lines) ...`, lines 208-217): a line produces a callback
argument exactly when it starts with `data: `, is not the literal
`data: [DONE]`, its remainder after the 6-character prefix parses as JSON
(`parse` is the `JSON.parse` oracle; `none` models a thrown exception, which
the `try`/`catch` swallows), and the parsed value's `text` property is truthy.
`none` means the callback is not invoked for this line. -/
def handleLine (parse : String → Option Json) (line : String) : Option Json :=
  if strStartsWith line "data: " && !(line == "data: [DONE]") then
    match parse (strDrop line 6) with
    | some j =>
        match jsonGetField j "text" with
        | some v => if jsTruthy v then some v else none
        | none => none
    | none => none
  else none

/-- The ordered callback arguments produced by running the per-line handler
over a list of lines; a skipped line contributes nothing and processing
continues. -/
def processLines (parse : String → Option Json) (lines : List String) : List Json :=
  lines.filterMap (handleLine parse)

/-- One iteration of the `chatStream` read loop on an already-decoded chunk:
the chunk is split on newlines in isolation (no carry-over of a partial last
line to the next iteration, exactly as in the source) and each line is
handled. -/
def processChunk (parse : String → Option Json) (chunk : String) : List Json :=
  processLines parse (jsSplitNl chunk)

/-- The ordered callback arguments produced by the whole `chatStream` read
loop on a list of decoded chunks. -/
def chatStreamOutputs (parse : String → Option Json) (chunks : List String) : List Json :=
  (chunks.map (processChunk parse)).flatten

/-- The code points of an ASCII string as bytes (its UTF-8 encoding, since all
characters used here are below 128). -/
def asciiEncode (s : String) : List ℕ := s.data.map Char.toNat

/-- `TextDecoder.decode` on a chunk of ASCII bytes: each byte below 128 is its
own character.  The source calls `decoder.decode(value)` without
`{ stream: true }`, so every chunk is decoded in isolation; on ASCII bytes
that per-chunk decode is exactly this function.  (Only ASCII bodies are
evaluated in this development.) -/
def asciiDecode (bs : List ℕ) : String := ⟨bs.map Char.ofNat⟩

/-- The ordered callback arguments produced by `chatStream` (API client,
lines 199-218) when the response body is delivered as the given list of byte
chunks: each chunk is decoded in isolation, split on newlines in isolation,
and handled line by line. -/
def chatStreamRun (parse : String → Option Json) (chunks : List (List ℕ)) : List Json :=
  chatStreamOutputs parse (chunks.map asciiDecode)

/-- A concrete fragment of `JSON.parse`, covering the remainders fed to it by
the concrete inputs of this development: the two well-formed objects parse to
their values, and every other string encountered (in particular the truncated
fragment `{"te`) throws, modelled as `none`. -/
def jsonParseFrag (s : String) : Option Json :=
  if s == "\x7b\"text\":\"hi\"\x7d" then some (.obj [("text", .str "hi")])
  else if s == "\x7b\"text\":\"\"\x7d" then some (.obj [("text", .str "")])
  else none

/-- The UTF-8 bytes of the one-line streaming body `data: {"text":"hi"}`
followed by a newline, delivered whole. -/
def wholeBody : List ℕ := asciiEncode "data: \x7b\"text\":\"hi\"\x7d\n"

/-- First chunk of a mid-line split of `wholeBody`. -/
def bodyPart1 : List ℕ := asciiEncode "data: \x7b\"te"

/-- Second chunk of a mid-line split of `wholeBody`. -/
def bodyPart2 : List ℕ := asciiEncode "xt\":\"hi\"\x7d\n"

/-- Embeds the axios request interceptor of the API client (lines 26-32):
`localStorage.getItem('token')` is passed in as `stored` (`none` when absent),
and the `Authorization` header is added only when the token is truthy (a
non-empty string). -/
def authInterceptor (stored : Option String) (headers : List (String × String)) :
    List (String × String) :=
  match stored with
  | some t => if t = "" then headers else headers ++ [("Authorization", "Bearer " ++ t)]
  | none => headers

/-- JavaScript template-literal interpolation of a possibly-null string:
`null` interpolates as the text `null`. -/
def jsTemplateOptString : Option String → String
  | some t => t
  | none => "null"

/-- Embeds the headers of the `fetch` call in `chatStream` (API client,
lines 190-197): the `Authorization` header is built unconditionally from the
template literal `Bearer ${token}`. -/
def chatStreamHeaders (stored : Option String) : List (String × String) :=
  [ ("Content-Type", "application/json"),
    ("Authorization", "Bearer " ++ jsTemplateOptString stored) ]

/-- The four mutation operations named by the specification's invalidation
sentence, as they appear in the source. -/
inductive MutationOp where
  | deleteActivityMutation
  | updateThresholdsMutation
  | updateCoachSettingsMutation
  | applyPlanMutation
deriving DecidableEq, Repr

/-- What a mutation's success continuation does: the query keys passed to
`queryClient.invalidateQueries`, and the route pushed, if any. -/
structure MutationSuccessEffects where
  invalidatedQueryKeys : List (List String)
  navigatesTo : Option String
deriving DecidableEq, Repr

/-- Transcribed success continuations: `handleDelete` in the activity-detail
page awaits `deleteActivity` and then only schedules
`router.push('/activities')` (no `invalidateQueries` call); the
`ThresholdsTab` mutation invalidates `hrZones` and `powerZones`; the
`CoachTab` mutation invalidates `coachSettings`; the `PlanModifier` apply
mutation invalidates `workouts` and `coachingContext`. -/
def mutationSuccessEffects : MutationOp → MutationSuccessEffects
  | .deleteActivityMutation => ⟨[], some "/activities"⟩
  | .updateThresholdsMutation => ⟨[["hrZones"], ["powerZones"]], none⟩
  | .updateCoachSettingsMutation => ⟨[["coachSettings"]], none⟩
  | .applyPlanMutation => ⟨[["workouts"], ["coachingContext"]], none⟩

/-- The observable outcome of the `AuthProvider` mount effect: the session
user, the `loading` flag, the token left in storage, and how many times
`getMe` was called. -/
structure BootstrapOutcome (U : Type) where
  user : Option U
  loading : Bool
  storedToken : Option String
  getMeCalls : ℕ
deriving DecidableEq, Repr

/-- Embeds the `AuthProvider` mount effect (`auth-context.tsx` lines 23-35):
with no stored token (or the falsy empty string) it only clears `loading`;
with a token it calls `getMe` once — populating the user on success, removing
the token on failure — and clears `loading` in the `finally`. -/
def authBootstrap {U : Type} (stored : Option String) (getMeResult : Except Unit U) :
    BootstrapOutcome U :=
  match stored with
  | none => ⟨none, false, none, 0⟩
  | some t =>
      if t = "" then ⟨none, false, some t, 0⟩
      else
        match getMeResult with
        | .ok u => ⟨some u, false, some t, 1⟩
        | .error _ => ⟨none, false, none, 1⟩

/-- The session state touched by the auth operations: the persisted token,
the in-memory user, and the route last pushed (if any). -/
structure SessionState (U : Type) where
  storedToken : Option String
  user : Option U
  route : Option String
deriving DecidableEq, Repr

/-- Embeds `login` in `auth-context.tsx` (lines 37-43): exchange credentials
(`exchange` is the `apiLogin` result carrying `access_token`), persist the
token, then fetch the user; a rejection at either await propagates out of the
async function, leaving the steps already performed in place. -/
def loginFlow {U : Type} (s : SessionState U) (exchange : Except Unit String)
    (fetchUser : Except Unit U) : SessionState U × Except Unit Unit :=
  match exchange with
  | .error e => (s, .error e)
  | .ok tok =>
      match fetchUser with
      | .error e => ({ s with storedToken := some tok }, .error e)
      | .ok u => (⟨some tok, some u, some "/dashboard"⟩, .ok ())

/-- Embeds `register` in `auth-context.tsx` (lines 45-51), which after the
credential exchange runs the same continuation as `login`. -/
def registerFlow {U : Type} (s : SessionState U) (exchange : Except Unit String)
    (fetchUser : Except Unit U) : SessionState U × Except Unit Unit :=
  match exchange with
  | .error e => (s, .error e)
  | .ok tok =>
      match fetchUser with
      | .error e => ({ s with storedToken := some tok }, .error e)
      | .ok u => (⟨some tok, some u, some "/dashboard"⟩, .ok ())

/-- The observable outcome of `handleFile` on the upload page: the upload
result shown (an error message, if any) and whether the upload mutation was
started. -/
structure HandleFileEffects where
  errorMessage : Option String
  uploadRequested : Bool
deriving DecidableEq, Repr

/-- Embeds `handleFile` from `upload/page.tsx` (lines 43-56): a name failing
`file.name.toLowerCase().endsWith('.fit')` sets an error result and returns
before the mutation; otherwise the result is cleared and the upload mutation
is started. -/
def handleFile (name : String) : HandleFileEffects :=
  if strEndsWith (jsToLowerCase name) ".fit" then ⟨none, true⟩
  else ⟨some "Only .FIT files are supported.", false⟩

/-- Claim C1 (code bug): `chatStream` is not invariant under re-chunking of the
response body.  For the ASCII body `data: {"text":"hi"}\n`, delivery as a
single chunk invokes the callback once with `"hi"`, while the same bytes split
mid-line into two chunks invoke it zero times: the first fragment fails JSON
parsing and is skipped, and the second lacks the `data: ` prefix.  The loop
decodes and splits every chunk in isolation, contradicting the specified
stateful, split-tolerant decoding. -/
theorem chatStream_not_chunking_invariant :
    wholeBody = bodyPart1 ++ bodyPart2 ∧
    chatStreamRun jsonParseFrag [wholeBody] = [Json.str "hi"] ∧
    chatStreamRun jsonParseFrag [bodyPart1, bodyPart2] = [] :=
  ⟨rfl, rfl, rfl⟩

/-- Claim C2 (confirmed): for positive LTHR `L`, max HR `M` and FTP `P`, the
zone preview shows five heart-rate zones with upper bounds
`round(0.5·L), round(0.75·L), L, round(1.1·L), M` and five power zones with
upper bounds `round(0.55·P), round(0.75·P), P, round(1.2·P), round(1.5·P)`;
each zone's lower bound is the previous upper bound plus one with zone 1
starting at 0; and the concrete instances `L=180, M=200` and `P=250` evaluate
to `[90, 135, 180, 198, 200]` and `[138, 188, 250, 300, 375]`. -/
theorem zonePreview_bounds (L M P : ℤ) (_hL : 0 < L) (_hM : 0 < M) (_hP : 0 < P) :
    zoneUppers (hrZonesPreview L M) =
      [jsRound ((L : ℚ) * 0.5), jsRound ((L : ℚ) * 0.75), L, jsRound ((L : ℚ) * 1.1), M] ∧
    zoneUppers (powerZonesPreview P) =
      [jsRound ((P : ℚ) * 0.55), jsRound ((P : ℚ) * 0.75), P,
        jsRound ((P : ℚ) * 1.2), jsRound ((P : ℚ) * 1.5)] ∧
    zoneLowers (hrZonesPreview L M) =
      0 :: ((zoneUppers (hrZonesPreview L M)).dropLast.map (fun u => u + 1)) ∧
    zoneLowers (powerZonesPreview P) =
      0 :: ((zoneUppers (powerZonesPreview P)).dropLast.map (fun u => u + 1)) ∧
    zoneUppers (hrZonesPreview 180 200) = [90, 135, 180, 198, 200] ∧
    zoneUppers (powerZonesPreview 250) = [138, 188, 250, 300, 375] := by
  refine ⟨rfl, rfl, rfl, rfl, ?_, ?_⟩ <;>
    norm_num [zoneUppers, hrZonesPreview, powerZonesPreview, jsRound]

/-- Witness for C2 at `L = 180`, `M = 200`, `P = 250`. -/
theorem zonePreview_bounds_witness :
    zoneUppers (hrZonesPreview 180 200) = [90, 135, 180, 198, 200] ∧
    zoneUppers (powerZonesPreview 250) = [138, 188, 250, 300, 375] :=
  ⟨(zonePreview_bounds 180 200 250 (by decide) (by decide) (by decide)).2.2.2.2.1,
   (zonePreview_bounds 180 200 250 (by decide) (by decide) (by decide)).2.2.2.2.2⟩

/-- Claim C3 (code bug): with LTHR absent (read as `0`) but a max heart rate
present, the `ZonesTab` "Your Zones" summary is rendered rather than withheld,
and its bounds are computed with the zero threshold — zones `0-0`, `1-0`,
`1-0`, `1-0`, `1-200` — because the section's guard is
`lthr > 0 || maxHr > 0`.  (With both heart-rate values absent the set is
withheld, and the power set is withheld whenever FTP is absent.) -/
theorem zonesTab_hr_summary_with_zero_lthr :
    zonesTabHrSummary 0 200 = some [(0, 0), (1, 0), (1, 0), (1, 0), (1, 200)] ∧
    zonesTabHrSummary 0 0 = none ∧
    zonesTabPowerSummary 0 = none := by
  refine ⟨?_, ?_, ?_⟩
  · rw [zonesTabHrSummary, if_pos (by norm_num)]
    norm_num [jsRound]
  · rw [zonesTabHrSummary, if_neg (by norm_num)]
  · rw [zonesTabPowerSummary, if_neg (by norm_num)]

/-- Claim C4 (confirmed): the training-status classifier is total on the five
half-open-below bands with no gaps or overlaps — each category is returned
exactly on its band — and the boundary value `-10` resolves to the higher
band, `neutral`. -/
theorem formStatus_total_bands (t : ℚ) :
    (formStatus t = .veryFatigued ↔ t < -30) ∧
    (formStatus t = .trainingHard ↔ -30 ≤ t ∧ t < -10) ∧
    (formStatus t = .neutral ↔ -10 ≤ t ∧ t < 5) ∧
    (formStatus t = .fresh ↔ 5 ≤ t ∧ t < 15) ∧
    (formStatus t = .veryFresh ↔ 15 ≤ t) ∧
    formStatus (-10) = .neutral := by
  have hb : formStatus (-10 : ℚ) = .neutral := by
    unfold formStatus
    rw [if_neg (by norm_num), if_neg (by norm_num), if_pos (by norm_num)]
  refine ⟨?_, ?_, ?_, ?_, ?_, hb⟩ <;>
  · unfold formStatus
    split_ifs with h1 h2 h3 h4 <;>
      constructor <;>
      intro hh <;>
      first
        | rfl
        | linarith
        | contradiction
        | (obtain ⟨hl, hr⟩ := hh; linarith)
        | (exact ⟨by linarith, by linarith⟩)

/-- Counterexample to claim C5 as stated: the line `data: {"text":""}` starts
with `data: `, is not the DONE sentinel, and its remainder parses to an object
carrying a `text` field (with value the empty string), yet the handler does
not invoke the callback — the code tests JavaScript truthiness of the field,
and the empty string is falsy. -/
theorem handleLine_iff_counterexample :
    ¬ (∀ (parse : String → Option Json) (line : String) (v : Json),
        handleLine parse line = some v ↔
          (strStartsWith line "data: " = true ∧ line ≠ "data: [DONE]" ∧
            ∃ j, parse (strDrop line 6) = some j ∧ jsonGetField j "text" = some v)) := by
  intro h
  have h2 := (h jsonParseFrag "data: \x7b\"text\":\"\"\x7d" (Json.str "")).mpr
    ⟨rfl, by decide, ⟨Json.obj [("text", Json.str "")], rfl, rfl⟩⟩
  exact Option.noConfusion h2

/-- Claim C5 (amended): the per-line handler invokes the callback with `v`
iff the line starts with `data: `, is not the literal `data: [DONE]`, the
remainder after the prefix parses as JSON, and the parsed value carries a
truthy `text` field with value `v` (in particular, an empty-string `text`
field is skipped); and any line on which the handler produces nothing — the
DONE sentinel, unparsable JSON, no or falsy `text` — contributes nothing
while the remaining lines are processed unchanged. -/
theorem handleLine_spec (parse : String → Option Json) (line : String) (v : Json)
    (pre post : List String) (bad : String) (hbad : handleLine parse bad = none) :
    (handleLine parse line = some v ↔
      (strStartsWith line "data: " = true ∧ line ≠ "data: [DONE]" ∧
        ∃ j, parse (strDrop line 6) = some j ∧ jsonGetField j "text" = some v ∧
          jsTruthy v = true)) ∧
    processLines parse (pre ++ bad :: post) =
      processLines parse pre ++ processLines parse post := by
  constructor
  · constructor
    · intro hv
      unfold handleLine at hv
      split at hv
      case isFalse hcond => exact Option.noConfusion hv
      rename_i hcond
      simp at hcond
      obtain ⟨hs, hd⟩ := hcond
      split at hv
      all_goals try exact Option.noConfusion hv
      rename_i j hp
      split at hv
      all_goals try exact Option.noConfusion hv
      rename_i w hg
      split_ifs at hv with ht
      obtain rfl : w = v := Option.some.inj hv
      exact ⟨hs, hd, j, hp, hg, ht⟩
    · rintro ⟨hs, hd, j, hp, hg, ht⟩
      unfold handleLine
      rw [if_pos (by simp [hs, hd])]
      split
      case h_2 x hp2 => rw [hp] at hp2; exact Option.noConfusion hp2
      rename_i j2 hp2
      obtain rfl : j = j2 := by rw [hp] at hp2; exact Option.some.inj hp2
      split
      case h_2 x hg2 => rw [hg] at hg2; exact Option.noConfusion hg2
      rename_i w hg2
      obtain rfl : v = w := by rw [hg] at hg2; exact Option.some.inj hg2
      rw [if_pos ht]
  · simp [processLines, List.filterMap_append, List.filterMap_cons, hbad]

/-- Witness for C5 at a parsed line with truthy text and a skipped malformed
line. -/
theorem handleLine_spec_witness :
    handleLine jsonParseFrag "data: \x7b\"text\":\"hi\"\x7d" = some (Json.str "hi") ∧
    processLines jsonParseFrag ["x", "data: oops", "data: \x7b\"text\":\"hi\"\x7d"] =
      processLines jsonParseFrag ["x"] ++
        processLines jsonParseFrag ["data: \x7b\"text\":\"hi\"\x7d"] := by
  have h := handleLine_spec jsonParseFrag "data: \x7b\"text\":\"hi\"\x7d" (Json.str "hi")
    ["x"] ["data: \x7b\"text\":\"hi\"\x7d"] "data: oops" rfl
  exact ⟨h.1.mpr ⟨rfl, by decide, Json.obj [("text", Json.str "hi")], rfl, rfl, rfl⟩, h.2⟩

/-- Counterexample to claim C6 as stated: with no stored token the
streaming-chat request still carries an `Authorization` header — the header is
built unconditionally from the template literal `Bearer ${token}`, which
interpolates the absent token as the text `null`. -/
theorem chatStream_header_without_token :
    ("Authorization", "Bearer null") ∈ chatStreamHeaders none := by decide

/-- Claim C6 (amended): requests issued through the axios client carry
`Authorization: Bearer <token>` exactly when a (non-empty) token is stored and
no `Authorization` header otherwise; the streaming-chat request always carries
an `Authorization` header — `Bearer <token>` when a token is stored, the
literal `Bearer null` when none is. -/
theorem requestAuthHeaders_spec (t : String) (headers : List (String × String))
    (ht : t ≠ "") :
    authInterceptor (some t) headers = headers ++ [("Authorization", "Bearer " ++ t)] ∧
    authInterceptor none headers = headers ∧
    ("Authorization", "Bearer " ++ t) ∈ chatStreamHeaders (some t) ∧
    ("Authorization", "Bearer null") ∈ chatStreamHeaders none := by
  refine ⟨?_, rfl, ?_, ?_⟩
  · rw [authInterceptor, if_neg ht]
  · simp [chatStreamHeaders, jsTemplateOptString]
  · simp [chatStreamHeaders, jsTemplateOptString]

/-- Witness for C6 at the token `tok` and an empty header list. -/
theorem requestAuthHeaders_spec_witness :
    authInterceptor (some "tok") [] = [] ++ [("Authorization", "Bearer " ++ "tok")] ∧
    authInterceptor none ([] : List (String × String)) = [] :=
  ⟨(requestAuthHeaders_spec "tok" [] (by decide)).1,
   (requestAuthHeaders_spec "tok" [] (by decide)).2.1⟩

/-- Counterexample to claim C7 as stated: not every mutation invalidates
dependent cached queries on success — activity deletion invalidates none. -/
theorem mutation_invalidation_counterexample :
    ¬ (∀ m : MutationOp, (mutationSuccessEffects m).invalidatedQueryKeys ≠ []) := by
  intro h
  exact h .deleteActivityMutation rfl

/-- Claim C7 (amended): threshold updates, coach-settings updates and plan
application invalidate their dependent cached query keys on success
(`hrZones`/`powerZones`, `coachSettings`, and `workouts`/`coachingContext`
respectively); activity deletion invalidates no cached queries — its success
continuation only navigates to the activities list after a delay. -/
theorem mutation_invalidation_spec :
    (mutationSuccessEffects .updateThresholdsMutation).invalidatedQueryKeys =
      [["hrZones"], ["powerZones"]] ∧
    (mutationSuccessEffects .updateCoachSettingsMutation).invalidatedQueryKeys =
      [["coachSettings"]] ∧
    (mutationSuccessEffects .applyPlanMutation).invalidatedQueryKeys =
      [["workouts"], ["coachingContext"]] ∧
    (mutationSuccessEffects .deleteActivityMutation).invalidatedQueryKeys = [] ∧
    (mutationSuccessEffects .deleteActivityMutation).navigatesTo = some "/activities" :=
  ⟨rfl, rfl, rfl, rfl, rfl⟩

/-- Claim C8 (confirmed): at application start, with no stored token the
session resolves to logged-out with `loading = false` and `getMe` is never
called; with a stored (non-empty) token whose current-user fetch fails, the
token is removed, `getMe` is called exactly once (no retry), and the session
resolves to logged-out with `loading = false`. -/
theorem authBootstrap_spec {U : Type} (g : Except Unit U) (t : String) (ht : t ≠ "") :
    authBootstrap (U := U) none g = ⟨none, false, none, 0⟩ ∧
    authBootstrap (some t) (Except.error () : Except Unit U) = ⟨none, false, none, 1⟩ := by
  refine ⟨rfl, ?_⟩
  rw [authBootstrap, if_neg ht]

/-- Witness for C8 at the stored token `tok`. -/
theorem authBootstrap_spec_witness :
    authBootstrap (U := Unit) none (Except.ok ()) = ⟨none, false, none, 0⟩ ∧
    authBootstrap (U := Unit) (some "tok") (Except.error ()) = ⟨none, false, none, 1⟩ :=
  ⟨(authBootstrap_spec (Except.ok ()) "tok" (by decide)).1,
   (authBootstrap_spec (Except.ok ()) "tok" (by decide)).2⟩

/-- Claim C9 (confirmed): a file whose name does not end in `.fit` compared
case-insensitively is rejected client-side with the error result and the
upload mutation is never started. -/
theorem handleFile_rejects_non_fit (name : String)
    (h : endsWithCaseInsensitive name ".fit" = false) :
    handleFile name = ⟨some "Only .FIT files are supported.", false⟩ := by
  have h2 : strEndsWith (jsToLowerCase name) ".fit" = false := by
    have hp : jsToLowerCase ".fit" = ".fit" := rfl
    rw [endsWithCaseInsensitive, hp] at h
    exact h
  rw [handleFile, if_neg (by simp [h2])]

/-- Witness for C9 at the file name `workout.gpx`. -/
theorem handleFile_rejects_non_fit_witness :
    handleFile "workout.gpx" = ⟨some "Only .FIT files are supported.", false⟩ :=
  handleFile_rejects_non_fit "workout.gpx" rfl

/-- Claim C10 (confirmed): when the credential exchange of `login` (or
`register`) succeeds — persisting the token — but the subsequent current-user
fetch fails, the persisted token remains in place, the in-memory user is
unchanged (still null in the fresh session), and no navigation occurs; unlike
the startup path, which removes the stored token when the same fetch fails. -/
theorem login_register_keep_token_on_failed_fetch {U : Type} (s : SessionState U)
    (tok : String) (htok : tok ≠ "") :
    loginFlow s (Except.ok tok) (Except.error () : Except Unit U) =
      ({ s with storedToken := some tok }, Except.error ()) ∧
    registerFlow s (Except.ok tok) (Except.error () : Except Unit U) =
      ({ s with storedToken := some tok }, Except.error ()) ∧
    (authBootstrap (some tok) (Except.error () : Except Unit U)).storedToken = none := by
  refine ⟨rfl, rfl, ?_⟩
  rw [authBootstrap, if_neg htok]

/-- Witness for C10 at the fresh session and token `tok`. -/
theorem login_register_keep_token_on_failed_fetch_witness :
    loginFlow (U := Unit) ⟨none, none, none⟩ (Except.ok "tok") (Except.error ()) =
      (⟨some "tok", none, none⟩, Except.error ()) ∧
    (authBootstrap (U := Unit) (some "tok") (Except.error ())).storedToken = none :=
  ⟨(login_register_keep_token_on_failed_fetch ⟨none, none, none⟩ "tok" (by decide)).1,
   (login_register_keep_token_on_failed_fetch (U := Unit) ⟨none, none, none⟩ "tok"
      (by decide)).2.2⟩
